import Mathlib

/-!
Shallow embedding of `process_video.py`, a VapourSynth archival video
restoration pipeline.  Video nodes are modelled by their observable
metadata (dimensions, frame count, frame rate); the external filter
plugins (QTGMC deinterlacing, FFT3DFilter denoising, DePan stabilization)
are parameters of the embedding, since the Python code invokes them as
opaque capabilities that may fail at runtime.
-/

structure VideoNode where
  width : Nat
  height : Nat
  numFrames : Nat
  fpsNum : Nat
  fpsDen : Nat
  deriving DecidableEq, Repr

/-- Capitalize in the sense of Python `str.capitalize`: first character
uppercased, all remaining characters lowercased. -/
def pyCapitalize (s : String) : String :=
  match s.data with
  | [] => ""
  | c :: cs => String.mk (c.toUpper :: cs.map Char.toLower)

/-- Characters matched by the regex character class used in
`re.split(r"[\s_-]+", text)`: whitespace, underscore, or dash. -/
def isSepChar (c : Char) : Bool :=
  c = ' ' || c = '\t' || c = '\n' || c = '\x0d' || c = '\x0c' || c = '\x0b' || c = '_' || c = '-'

/-- Splitting a character list at separator characters, keeping the
(possibly empty) segments between them — the semantics of
`re.split(r"[\s_-]+", text)` once empty segments are dropped. -/
def splitSepsAux : List Char → List Char → List (List Char)
  | [], acc => [acc.reverse]
  | c :: cs, acc =>
    if isSepChar c then acc.reverse :: splitSepsAux cs []
    else splitSepsAux cs (c :: acc)

/-- Embeds `to_pascal_case`: split on whitespace/underscore/dash runs,
drop empty parts, capitalize each part, concatenate. -/
def to_pascal_case (text : String) : String :=
  String.join ((((splitSepsAux text.data []).map String.mk).filter
    (fun p => !p.isEmpty)).map pyCapitalize)

/-- Embeds `detect_matrix`: BT.709 for HD (width at least 1280), BT.601 for SD. -/
def detect_matrix (c : VideoNode) : String :=
  if 1280 ≤ c.width then "709" else "601"

/-- Result of `apply_stabilization`: resulting clip, whether the DePan
capability was invoked, and whether a stabilization error was logged. -/
structure StabResult where
  clip : VideoNode
  invoked : Bool
  errorLogged : Bool
  deriving DecidableEq, Repr

/-- Embeds `apply_stabilization`: identity when disabled; invokes the DePan
capability when enabled, and on any failure logs the error and returns the
unmodified input clip. -/
def apply_stabilization (depan : VideoNode → Except String VideoNode)
    (clip : VideoNode) (enable : Bool) : StabResult :=
  if enable = false then ⟨clip, false, false⟩
  else
    match depan clip with
    | .ok c => ⟨c, true, false⟩
    | .error _ => ⟨clip, true, true⟩

/-- Embeds `strength_map.get(strength, 2.0)`: the dictionary lookup with
default 2.0 used by `apply_noise_reduction`. -/
def strength_map_get (strength : String) : Rat :=
  if strength = "none" then 0
  else if strength = "light" then 1
  else if strength = "medium" then 2
  else if strength = "heavy" then 7/2
  else 2

/-- Result of `apply_noise_reduction`: resulting clip, whether FFT3DFilter
was invoked, and whether the plugin-not-found warning was logged. -/
structure NRResult where
  clip : VideoNode
  filterInvoked : Bool
  warned : Bool
  deriving DecidableEq, Repr

/-- Embeds `apply_noise_reduction`: maps the strength to a sigma
(default 2.0), returns the clip unchanged when sigma is 0, otherwise
invokes FFT3DFilter; if the plugin is unavailable (AttributeError),
logs a warning and returns the input unchanged. -/
def apply_noise_reduction (fft3dAvailable : Bool)
    (fft3d : VideoNode → Rat → VideoNode)
    (clip : VideoNode) (strength : String) : NRResult :=
  let sigma := strength_map_get strength
  if sigma = 0 then ⟨clip, false, false⟩
  else if fft3dAvailable then ⟨fft3d clip sigma, true, false⟩
  else ⟨clip, false, true⟩

/-- Model of `core.resize.Bicubic(c, width=w, height=h)` on node metadata. -/
def resizeBicubic (c : VideoNode) (w h : Nat) : VideoNode :=
  { c with width := w, height := h }

/-- Model of `core.resize.Lanczos(c, width=w, height=h)` on node metadata. -/
def resizeLanczos (c : VideoNode) (w h : Nat) : VideoNode :=
  { c with width := w, height := h }

/-- Model of `core.znedi3.nnedi3(c, field=0, dh=True)`: doubles the height. -/
def nnedi3DoubleHeight (c : VideoNode) : VideoNode :=
  { c with height := 2 * c.height }

/-- Model of `core.std.Transpose`: swaps width and height. -/
def transposeNode (c : VideoNode) : VideoNode :=
  { c with width := c.height, height := c.width }

/-- Embeds the `scale_node` closure of `get_output_node`: identity when
scale is 1, otherwise resize to exactly (width*scale, height*scale); the
nnedi3_resample path performs two field doublings with transposes followed
by a corrective bicubic resize to the exact target dimensions. -/
def scale_node (scale : Nat) (resizer : String) (c : VideoNode) : VideoNode :=
  if scale = 1 then c
  else
    let w := c.width * scale
    let h := c.height * scale
    if resizer = "nnedi3_resample" then
      resizeBicubic (transposeNode (nnedi3DoubleHeight (transposeNode (nnedi3DoubleHeight c)))) w h
    else if resizer = "lanczos" then
      resizeLanczos c w h
    else
      resizeBicubic c w h

/-- Model of `core.resize.Bicubic(c, format=vs.RGB24, matrix_in_s=matrix)`:
a format conversion, leaving node metadata unchanged. -/
def rgbConvert (c : VideoNode) (matrix : String) : VideoNode := c

/-- Model of `core.text.Text`: a label overlay, leaving metadata unchanged. -/
def addText (c : VideoNode) (lbl : String) : VideoNode := c

/-- Model of `core.std.StackHorizontal` on two nodes. -/
def stackHorizontal (a b : VideoNode) : VideoNode :=
  { a with width := a.width + b.width }

/-- Model of `core.std.StackVertical` on two nodes. -/
def stackVertical (a b : VideoNode) : VideoNode :=
  { a with height := a.height + b.height }

/-- The external filter capabilities invoked by the pipeline: QTGMC
(taking the preset name and field order, and possibly raising), the
FFT3DFilter plugin (with its availability flag), and DePan. -/
structure Caps where
  qtgmc : String → Bool → VideoNode → Except String VideoNode
  fft3dAvailable : Bool
  fft3d : VideoNode → Rat → VideoNode
  depan : VideoNode → Except String VideoNode

/-- The `v_prefilt` node of `get_output_node`: optional PRE-stage denoise. -/
def prefilt_node (caps : Caps) (video : VideoNode) (denoise denoise_stage : String) : VideoNode :=
  if denoise_stage = "pre" then
    (apply_noise_reduction caps.fft3dAvailable caps.fft3d video denoise).clip
  else video

/-- Embeds `get_output_node`.  Returns the result of the pipeline assembly
(the processed node, filename suffix and grid flag, or a propagated
exception message), paired with the trace of presets passed to QTGMC. -/
def get_output_node (caps : Caps) (video : VideoNode) (mode : String) (fast tff : Bool)
    (denoise : String) (stabilize : Bool) (scale : Nat) (resizer : String)
    (denoise_stage : String) :
    Except String (VideoNode × String × Bool) × List String :=
  let v_raw := video
  let q_preset_name := if fast then "Fast" else "Very Slow"
  let q_suffix := if fast then "Fast" else "VerySlow"
  let field_str := if tff then "TFF" else "BFF"
  let v_prefilt := prefilt_node caps video denoise denoise_stage
  match caps.qtgmc q_preset_name tff v_prefilt with
  | .error e => (.error e, [q_preset_name])
  | .ok v_deint =>
    let v_dn :=
      if denoise_stage = "post" then
        (apply_noise_reduction caps.fft3dAvailable caps.fft3d v_deint denoise).clip
      else v_deint
    let v_stab := (apply_stabilization caps.depan v_dn stabilize).clip
    if mode = "composite" ∧ fast = false then
      let prep := fun (c : VideoNode) (lbl : String) =>
        let c := scale_node scale resizer c
        let matrix := detect_matrix c
        addText (rgbConvert c matrix) lbl
      let q1 := prep v_raw ("1. ORIGINAL (" ++ field_str ++ ")")
      let q2 := prep v_deint ("2. DE-INT (QTGMC " ++ q_preset_name ++ ", " ++ field_str ++ ")")
      let q3 := prep v_dn ("3. DE-INT + DN (" ++ denoise ++ ", " ++ denoise_stage ++ ")")
      let q4 := prep v_stab "4. ALL + STAB"
      (.ok (stackVertical (stackHorizontal q1 q2) (stackHorizontal q3 q4), "PriorityGrid", true),
        [q_preset_name])
    else
      let ns : VideoNode × String :=
        if mode = "original" then (v_raw, "Original")
        else if mode = "single" then
          (v_stab,
            "Deint" ++ q_suffix
              ++ (if denoise ≠ "none" then
                    "DN" ++ pyCapitalize denoise ++ pyCapitalize denoise_stage
                  else "")
              ++ (if stabilize then "Stab" else ""))
        else (v_deint, "Deint" ++ q_suffix)
      let node := scale_node scale resizer ns.1
      let matrix := detect_matrix node
      (.ok (rgbConvert node matrix, ns.2, false), [q_preset_name])

/-- Result of the field-order resolution branch of `process_frame`:
the chosen TFF flag and whether a warning (rather than an info-level
detection message) was logged. -/
structure FieldOrderResult where
  tff : Bool
  warned : Bool
  deriving DecidableEq, Repr

/-- Embeds the `_FieldBased` dispatch of `process_frame`: a missing
property defaults to 2; 1 means BFF, 2 means TFF, 0 (progressive) and any
other value fall back to TFF with a warning. -/
def detect_field_order (fbProp : Option Int) : FieldOrderResult :=
  let fb := fbProp.getD 2
  if fb = 1 then ⟨false, false⟩
  else if fb = 2 then ⟨true, false⟩
  else if fb = 0 then ⟨true, true⟩
  else ⟨true, true⟩

/-- The external world of one `process_frame` run: source-file existence,
the opened video, per-frame properties, the timestamp-derived start frame
(timestamp arithmetic is an external collaborator), the source filename
stem, the run timestamp, and per-index write success. -/
structure Env where
  fileExists : Bool
  video : VideoNode
  props : Nat → Option Int
  timestampFrame : Nat
  baseStem : String
  runTimestamp : String
  writeOk : Nat → Bool

/-- The start-frame choice of `process_frame`: an explicit target frame
number takes precedence over the timestamp-derived frame. -/
def resolve_start (env : Env) (target_frame_num : Option Nat) : Nat :=
  target_frame_num.getD env.timestampFrame

/-- The field-order resolution of `process_frame`: an explicit override
wins; otherwise the `_FieldBased` hint is read from the frame at index
`min start_frame (num_frames - 1)` and dispatched. -/
def resolve_tff (env : Env) (tff_override : Option Bool) (start_frame : Nat) : Bool :=
  match tff_override with
  | some b => b
  | none =>
    (detect_field_order (env.props (min start_frame (env.video.numFrames - 1)))).tff

/-- The Python format `idx:06d`: decimal digits left-padded with zeros to
at least width 6. -/
def padZeros6 (n : Nat) : String :=
  let s := toString n
  if s.length < 6 then String.mk (List.replicate (6 - s.length) '0') ++ s else s

/-- The per-frame output filename template of `process_frame` (the `%d`
is the imwri frame-sequence placeholder). -/
def frameName (base_fn : String) (idx : Nat) (suffix run_ts : String) : String :=
  base_fn ++ "_F" ++ padZeros6 idx ++ "_" ++ suffix ++ "_" ++ run_ts ++ "_%d.png"

/-- The extraction loop of `process_frame`, iterating `i` below the
requested count with `idx = start + i*step`, and breaking at the first
index not below the frame count. -/
def extractIndicesAux (start step numFrames : Nat) : Nat → Nat → List Nat
  | _, 0 => []
  | i, n + 1 =>
    let idx := start + i * step
    if numFrames ≤ idx then []
    else idx :: extractIndicesAux start step numFrames (i + 1) n

/-- The list of canonical frame indices actually requested by the
extraction loop of `process_frame`. -/
def extractIndices (start count step numFrames : Nat) : List Nat :=
  extractIndicesAux start step numFrames 0 count

/-- Whether the composite-breakdown reproduction-command block at the end
of `process_frame` is printed. -/
def suggestion_block_printed (mode : String) (fast : Bool) : Bool :=
  decide (mode = "composite" ∧ fast = false)

/-- Observable outcome of one `process_frame` run: an immediate
`sys.exit` with a status code, an uncaught exception propagating out of
pipeline assembly, or normal completion with the per-frame extraction
records `(index, output name, write succeeded)` and whether the
reproduction-command block was printed. -/
inductive RunResult where
  | exitError : Nat → RunResult
  | exception : String → RunResult
  | completed : List (Nat × String × Bool) → Bool → RunResult
  deriving DecidableEq, Repr

/-- Embeds `process_frame`: missing source file exits with status 1;
otherwise resolves the start frame and field order, assembles the
pipeline, and runs the extraction loop, recording each write attempt
(failures are logged and the loop continues). -/
def process_frame (env : Env) (caps : Caps) (count step : Nat) (fast : Bool)
    (target_frame_num : Option Nat) (scale : Nat) (resizer mode : String)
    (tff_override : Option Bool) (denoise : String) (stabilize : Bool)
    (denoise_stage : String) : RunResult :=
  if env.fileExists = false then .exitError 1
  else
    let base_fn := to_pascal_case env.baseStem
    let start_frame := resolve_start env target_frame_num
    let tff := resolve_tff env tff_override start_frame
    match (get_output_node caps env.video mode fast tff denoise stabilize scale resizer
        denoise_stage).1 with
    | .error e => .exception e
    | .ok out =>
      let records := (extractIndices start_frame count step env.video.numFrames).map
        (fun idx => (idx, frameName base_fn idx out.2.1 env.runTimestamp, env.writeOk idx))
      .completed records (suggestion_block_printed mode fast)

/-- A concrete SD source node: 720x480, 100 frames, 30 fps. -/
def clip0 : VideoNode := ⟨720, 480, 100, 30, 1⟩

/-- A concrete environment: existing file over `clip0`, TFF-coded frames,
stem "clip", fixed run timestamp, all writes succeeding. -/
def env0 : Env :=
  { fileExists := true, video := clip0, props := fun _ => some 2,
    timestampFrame := 0, baseStem := "clip", runTimestamp := "20250101_000000",
    writeOk := fun _ => true }

/-- Like `env0` but the write of frame 50 fails. -/
def env1 : Env :=
  { env0 with writeOk := fun idx => decide (idx ≠ 50) }

/-- Capabilities where every plugin succeeds as the identity. -/
def capsId : Caps :=
  { qtgmc := fun _ _ c => .ok c, fft3dAvailable := true, fft3d := fun c _ => c,
    depan := fun c => .ok c }

/-- Capabilities whose deinterlacer doubles the output frame rate. -/
def capsDoubleFps : Caps :=
  { capsId with qtgmc := fun _ _ c => .ok { c with fpsNum := 2 * c.fpsNum } }

/-- Capabilities whose deinterlacer fails on the high-quality preset but
would succeed on the reduced preset. -/
def capsFailHQ : Caps :=
  { capsId with
    qtgmc := fun p _ c => if p = "Very Slow" then .error "QTGMC failed" else .ok c }

/-- Post-compose the QTGMC capability with an override of the reported
output frame rate, leaving everything else identical. -/
def fps_forced (caps : Caps) (m : Nat) : Caps :=
  { caps with
    qtgmc := fun p t c => (caps.qtgmc p t c).map (fun d => { d with fpsNum := m, fpsDen := 1 }) }

/-! ### Helper lemmas -/

theorem extractIndicesAux_eq_filter (start step N : Nat) :
    ∀ (n i : Nat),
      extractIndicesAux start step N i n
        = ((List.range n).map (fun j => start + (i + j) * step)).filter
            (fun x => decide (x < N)) := by
  intro n
  induction n with
  | zero => intro i; rfl
  | succ n ih =>
    intro i
    rw [List.range_succ_eq_map, List.map_cons, List.filter_cons, List.map_map]
    have hfun : ((fun j => start + (i + j) * step) ∘ Nat.succ)
        = fun j => start + (i + 1 + j) * step := by
      funext j
      have h1 : i + Nat.succ j = i + 1 + j := by omega
      simp [Function.comp, h1]
    rw [hfun]
    simp only [extractIndicesAux, Nat.add_zero]
    by_cases h : N ≤ start + i * step
    · rw [if_pos h]
      have hd : decide (start + i * step < N) = false := by
        simp only [decide_eq_false_iff_not, not_lt]; exact h
      rw [hd]
      simp only [Bool.false_eq_true, if_false]
      symm
      rw [List.filter_eq_nil_iff]
      intro x hx
      simp only [List.mem_map, List.mem_range] at hx
      obtain ⟨j, hj, rfl⟩ := hx
      simp only [decide_eq_true_eq, not_lt]
      exact le_trans h (Nat.add_le_add_left (Nat.mul_le_mul_right step (by omega)) start)
    · rw [if_neg h]
      have hd : decide (start + i * step < N) = true := by
        simp only [decide_eq_true_eq]; omega
      rw [hd]
      simp only [if_true]
      rw [ih (i + 1)]

theorem extractIndices_eq_filter (start count step N : Nat) :
    extractIndices start count step N
      = ((List.range count).map (fun i => start + i * step)).filter
          (fun x => decide (x < N)) := by
  have h := extractIndicesAux_eq_filter start step N count 0
  simpa [extractIndices] using h

theorem filter_length_lt_of_mem_not {α : Type} {p : α → Bool} {l : List α} {x : α}
    (hx : x ∈ l) (hpx : p x = false) : (l.filter p).length < l.length := by
  induction l with
  | nil => cases hx
  | cons a t ih =>
    rw [List.filter_cons]
    rcases List.mem_cons.mp hx with rfl | hxt
    · rw [hpx]
      simp only [Bool.false_eq_true, if_false, List.length_cons]
      exact Nat.lt_succ_of_le (List.length_filter_le _ _)
    · by_cases hpa : p a = true
      · rw [if_pos hpa]
        simp only [List.length_cons]
        exact Nat.succ_lt_succ (ih hxt)
      · rw [if_neg hpa]
        exact Nat.lt_succ_of_lt (ih hxt)

/-! ### Claim theorems -/

/-- C3 counterexample: with no override and an unset interlace hint, the
field-order resolution defaults the hint to the TFF-coded value and logs
an info-level detection message, not a warning — the claim that unset
hints produce a warning fails here. -/
theorem C3_counterexample :
    (detect_field_order none).warned = false ∧ (detect_field_order none).tff = true :=
  ⟨rfl, rfl⟩

/-- C3 (amended): field-order resolution is total and never fails; with no
override the hint is read from the frame at index
`min start_frame (total_frames - 1)`; hint 1 (BFF-coded) maps to BFF and
everything else maps to TFF; a warning is logged exactly for present hints
other than 1 (BFF) and 2 (TFF) — an unset hint defaults to the TFF-coded
value without a warning. -/
theorem C3_field_order_total (env : Env) (start_frame : Nat) (hint : Option Int) (b : Bool) :
    ((detect_field_order hint).tff = decide (hint ≠ some 1)) ∧
    ((detect_field_order hint).warned
        = match hint with
          | none => false
          | some v => decide (v ≠ 1 ∧ v ≠ 2)) ∧
    resolve_tff env (some b) start_frame = b ∧
    resolve_tff env none start_frame
      = (detect_field_order (env.props (min start_frame (env.video.numFrames - 1)))).tff := by
  refine ⟨?_, ?_, rfl, rfl⟩
  · cases hint with
    | none => rfl
    | some v =>
      simp only [detect_field_order, Option.getD_some]
      by_cases h1 : v = 1
      · subst h1; simp
      · by_cases h2 : v = 2
        · subst h2; simp
        · by_cases h0 : v = 0 <;> simp [h0, h1, h2]
  · cases hint with
    | none => rfl
    | some v =>
      simp only [detect_field_order, Option.getD_some]
      by_cases h1 : v = 1
      · subst h1; simp
      · by_cases h2 : v = 2
        · subst h2; simp
        · by_cases h0 : v = 0 <;> simp [h0, h1, h2]

/-- C4: for start index `s`, count `n` and step at least 1, the extraction
loop requests only canonical indices `s + i*step` strictly below the frame
count, in strictly increasing order, at most `n` of them; the requested
list is exactly the in-range prefix of the canonical schedule (the loop
stops at the first out-of-range index instead of erroring), and any
out-of-range scheduled index forces strictly fewer than `n` extractions. -/
theorem C4_extraction_loop_bounds (s n step N : Nat) (hstep : 1 ≤ step) :
    (∀ x ∈ extractIndices s n step N, x < N) ∧
    List.Pairwise (· < ·) (extractIndices s n step N) ∧
    (extractIndices s n step N).length ≤ n ∧
    (extractIndices s n step N
      = ((List.range n).map (fun i => s + i * step)).filter (fun x => decide (x < N))) ∧
    (∀ i, i < n → N ≤ s + i * step → (extractIndices s n step N).length < n) := by
  have heq := extractIndices_eq_filter s n step N
  refine ⟨?_, ?_, ?_, heq, ?_⟩
  · intro x hx
    rw [heq] at hx
    exact of_decide_eq_true (List.mem_filter.mp hx).2
  · rw [heq]
    refine List.Pairwise.filter _ (List.Pairwise.map _ ?_ (List.pairwise_lt_range n))
    intro a b hab
    exact Nat.add_lt_add_left (Nat.mul_lt_mul_of_pos_right hab (by omega)) s
  · rw [heq]
    calc (((List.range n).map (fun i => s + i * step)).filter (fun x => decide (x < N))).length
        ≤ ((List.range n).map (fun i => s + i * step)).length := List.length_filter_le _ _
      _ = n := by simp
  · intro i hi hN
    rw [heq]
    have hmem : s + i * step ∈ (List.range n).map (fun i => s + i * step) :=
      List.mem_map.mpr ⟨i, List.mem_range.mpr hi, rfl⟩
    have hpx : (fun x => decide (x < N)) (s + i * step) = false := by
      simp only [decide_eq_false_iff_not, not_lt]
      exact hN
    have hlt := @filter_length_lt_of_mem_not _ (fun x => decide (x < N)) _ _ hmem hpx
    simpa using hlt

/-- C4 witness: a request of 3 frames starting at frame 95 of a 100-frame
source with step 10 requests only index 95 and stops early. -/
theorem C4_extraction_loop_bounds_witness :
    1 ≤ 10 ∧
    (∀ x ∈ extractIndices 95 3 10 100, x < 100) ∧
    List.Pairwise (· < ·) (extractIndices 95 3 10 100) ∧
    (extractIndices 95 3 10 100).length ≤ 3 ∧
    (extractIndices 95 3 10 100
      = ((List.range 3).map (fun i => 95 + i * 10)).filter (fun x => decide (x < 100))) ∧
    (∀ i, i < 3 → 100 ≤ 95 + i * 10 → (extractIndices 95 3 10 100).length < 3) :=
  ⟨by decide, C4_extraction_loop_bounds 95 3 10 100 (by decide)⟩

/-- C6: noise reduction at strength none returns the clip unchanged
without invoking FFT3DFilter; an unavailable FFT3DFilter plugin makes
noise reduction return the input unchanged with a warning; and a failing
DePan call makes stabilization log the error and return the unmodified
input — all three degradations produce a value rather than aborting. -/
theorem C6_capability_degradations (avail : Bool) (fft3d : VideoNode → Rat → VideoNode)
    (depan : VideoNode → Except String VideoNode) (clip : VideoNode)
    (strength e : String)
    (hs : strength ≠ "none") (hd : depan clip = .error e) :
    apply_noise_reduction avail fft3d clip "none" = ⟨clip, false, false⟩ ∧
    (avail = false → apply_noise_reduction avail fft3d clip strength = ⟨clip, false, true⟩) ∧
    apply_stabilization depan clip true = ⟨clip, true, true⟩ := by
  refine ⟨rfl, ?_, ?_⟩
  · intro ha
    subst ha
    have hsig : strength_map_get strength ≠ 0 := by
      simp only [strength_map_get]
      split_ifs with h1 h2 h3 h4
      · exact absurd h1 hs
      all_goals norm_num
    simp [apply_noise_reduction, hsig]
  · simp [apply_stabilization, hd]

/-- C6 witness: concrete degradations over `clip0` with an unavailable
FFT3DFilter and a failing DePan. -/
theorem C6_capability_degradations_witness :
    apply_noise_reduction false (fun c _ => c) clip0 "none" = ⟨clip0, false, false⟩ ∧
    apply_noise_reduction false (fun c _ => c) clip0 "medium" = ⟨clip0, false, true⟩ ∧
    apply_stabilization (fun _ => .error "DePan missing") clip0 true = ⟨clip0, true, true⟩ := by
  have h := C6_capability_degradations false (fun c _ => c)
    (fun _ => .error "DePan missing") clip0 "medium" "DePan missing" (by decide) rfl
  exact ⟨h.1, h.2.1 rfl, h.2.2⟩

/-- C7: for every scale factor at least 1 and each of the three resizer
choices, the scaled node's dimensions are exactly the input dimensions
times the scale (the nnedi3 path via its final corrective resize), and
scale 1 skips scaling entirely, returning the clip unchanged. -/
theorem C7_scale_exact (scale : Nat) (resizer : String) (c : VideoNode)
    (hs : 1 ≤ scale)
    (hr : resizer = "bicubic" ∨ resizer = "lanczos" ∨ resizer = "nnedi3_resample") :
    (scale_node scale resizer c).width = c.width * scale ∧
    (scale_node scale resizer c).height = c.height * scale ∧
    (scale = 1 → scale_node scale resizer c = c) := by
  by_cases h1 : scale = 1
  · subst h1
    simp [scale_node]
  · refine ⟨?_, ?_, fun h => absurd h h1⟩ <;>
      (simp only [scale_node, if_neg h1]
       rcases hr with rfl | rfl | rfl <;>
         simp [resizeBicubic, resizeLanczos, nnedi3DoubleHeight, transposeNode])

/-- C7 witness: scaling `clip0` by 3 with the nnedi3 path yields exactly
2160x1440, and scale 1 is the identity. -/
theorem C7_scale_exact_witness :
    (scale_node 3 "nnedi3_resample" clip0).width = clip0.width * 3 ∧
    (scale_node 3 "nnedi3_resample" clip0).height = clip0.height * 3 ∧
    (3 = 1 → scale_node 3 "nnedi3_resample" clip0 = clip0) :=
  C7_scale_exact 3 "nnedi3_resample" clip0 (by decide) (Or.inr (Or.inr rfl))

/-- C10: every strength string outside the four known values is treated as
medium: the sigma lookup defaults to 2.0 and, with the plugin available,
the filter is invoked at sigma 2.0 rather than erroring or skipping. -/
theorem C10_unknown_strength_default (strength : String)
    (fft3d : VideoNode → Rat → VideoNode) (clip : VideoNode)
    (h1 : strength ≠ "none") (h2 : strength ≠ "light")
    (h3 : strength ≠ "medium") (h4 : strength ≠ "heavy") :
    strength_map_get strength = 2 ∧
    apply_noise_reduction true fft3d clip strength = ⟨fft3d clip 2, true, false⟩ := by
  have hsm : strength_map_get strength = 2 := by
    simp [strength_map_get, h1, h2, h3, h4]
  refine ⟨hsm, ?_⟩
  simp only [apply_noise_reduction, hsm]
  norm_num

/-- C10 witness: the unknown strength "ultra" maps to sigma 2.0 and the
filter is applied. -/
theorem C10_unknown_strength_default_witness :
    strength_map_get "ultra" = 2 ∧
    apply_noise_reduction true (fun c _ => c) clip0 "ultra" = ⟨clip0, true, false⟩ :=
  C10_unknown_strength_default "ultra" (fun c _ => c) clip0
    (by decide) (by decide) (by decide) (by decide)

/-- C2 counterexample: with a deinterlace capability that fails on the
high-quality preset but would succeed on the reduced preset, pipeline
assembly propagates the failure having invoked QTGMC only once, with the
high-quality preset — no retry with the reduced preset occurs. -/
theorem C2_counterexample :
    capsFailHQ.qtgmc "Fast" true clip0 = Except.ok clip0 ∧
    (get_output_node capsFailHQ clip0 "deint" false true "none" false 1 "bicubic" "pre").1
      = Except.error "QTGMC failed" ∧
    (get_output_node capsFailHQ clip0 "deint" false true "none" false 1 "bicubic" "pre").2
      = ["Very Slow"] :=
  ⟨rfl, rfl, rfl⟩

/-- C2 (amended): QTGMC is invoked exactly once, with the single preset
selected by the fast flag; if that invocation fails, the failure
propagates unchanged to the caller of `get_output_node`, with no retry at
a reduced preset. -/
theorem C2_no_retry (caps : Caps) (video : VideoNode) (mode : String)
    (fast tff : Bool) (denoise : String) (stabilize : Bool) (scale : Nat)
    (resizer denoise_stage e : String)
    (h : caps.qtgmc (if fast then "Fast" else "Very Slow") tff
        (prefilt_node caps video denoise denoise_stage) = Except.error e) :
    (get_output_node caps video mode fast tff denoise stabilize scale resizer
        denoise_stage).1 = Except.error e ∧
    (get_output_node caps video mode fast tff denoise stabilize scale resizer
        denoise_stage).2 = [if fast then "Fast" else "Very Slow"] := by
  simp only [get_output_node]
  rw [h]
  exact ⟨rfl, rfl⟩

/-- C2 witness: concrete failing high-quality invocation propagating out
of `get_output_node` after a single QTGMC call. -/
theorem C2_no_retry_witness :
    (get_output_node capsFailHQ clip0 "single" false true "medium" true 2 "lanczos" "pre").1
      = Except.error "QTGMC failed" ∧
    (get_output_node capsFailHQ clip0 "single" false true "medium" true 2 "lanczos" "pre").2
      = [if (false : Bool) then "Fast" else "Very Slow"] :=
  C2_no_retry capsFailHQ clip0 "single" false true "medium" true 2 "lanczos" "pre"
    "QTGMC failed" rfl

/-- C8: in composite mode with the fast flag set, pipeline assembly does
not build the 2x2 grid: it returns the simplified deinterlaced variant
with suffix "DeintFast" and grid flag false instead of failing; and the
reproduction-command block is printed if and only if the mode is composite
and fast is not set. -/
theorem C8_composite_fast_degrades (caps : Caps) (video : VideoNode) (tff : Bool)
    (denoise : String) (stabilize : Bool) (scale : Nat) (resizer denoise_stage : String)
    (vd : VideoNode) (mode : String) (fast : Bool)
    (h : caps.qtgmc "Fast" tff (prefilt_node caps video denoise denoise_stage)
        = Except.ok vd) :
    (get_output_node caps video "composite" true tff denoise stabilize scale resizer
        denoise_stage).1
      = Except.ok (rgbConvert (scale_node scale resizer vd)
          (detect_matrix (scale_node scale resizer vd)), "DeintFast", false) ∧
    (suggestion_block_printed mode fast = true ↔ (mode = "composite" ∧ fast = false)) := by
  constructor
  · simp only [get_output_node]
    simp only [if_true]
    rw [h]
    simp
  · simp [suggestion_block_printed]

/-- C8 witness: a concrete composite-mode fast run degrades to the
deinterlaced variant, and the printed-block condition instantiated at a
composite fast run. -/
theorem C8_composite_fast_degrades_witness :
    (get_output_node capsId clip0 "composite" true true "medium" true 1 "bicubic" "pre").1
      = Except.ok (rgbConvert (scale_node 1 "bicubic" clip0)
          (detect_matrix (scale_node 1 "bicubic" clip0)), "DeintFast", false) ∧
    (suggestion_block_printed "composite" true = true
      ↔ ("composite" = "composite" ∧ true = false)) :=
  C8_composite_fast_degrades capsId clip0 true "medium" true 1 "bicubic" "pre" clip0
    "composite" true rfl

/-- C5: a missing source file makes `process_frame` terminate immediately
with exit status 1 and no write attempts; with the file present and the
pipeline assembled, the run completes normally with one record per
in-range index carrying its individual write outcome — a failed write at
one index is recorded and the loop continues to every later index, never
terminating the run. -/
theorem C5_fatal_vs_perframe (env : Env) (caps : Caps) (count step : Nat) (fast : Bool)
    (target_frame_num : Option Nat) (scale : Nat) (resizer mode : String)
    (tff_override : Option Bool) (denoise : String) (stabilize : Bool)
    (denoise_stage : String) (node : VideoNode) (suffix : String) (g : Bool)
    (hok : (get_output_node caps env.video mode fast
        (resolve_tff env tff_override (resolve_start env target_frame_num))
        denoise stabilize scale resizer denoise_stage).1 = Except.ok (node, suffix, g)) :
    (env.fileExists = false →
      process_frame env caps count step fast target_frame_num scale resizer mode
        tff_override denoise stabilize denoise_stage = RunResult.exitError 1) ∧
    (env.fileExists = true →
      process_frame env caps count step fast target_frame_num scale resizer mode
        tff_override denoise stabilize denoise_stage
        = RunResult.completed
            ((extractIndices (resolve_start env target_frame_num) count step
                env.video.numFrames).map
              (fun idx => (idx, frameName (to_pascal_case env.baseStem) idx suffix
                env.runTimestamp, env.writeOk idx)))
            (suggestion_block_printed mode fast)) := by
  constructor
  · intro h
    simp [process_frame, h]
  · intro h
    simp [process_frame, h, hok]

/-- C5 witness: over a 100-frame source whose frame-50 write fails, a
3-frame run starting at 49 records the failing index and continues. -/
theorem C5_fatal_vs_perframe_witness :
    process_frame env1 capsId 3 1 false (some 49) 1 "bicubic" "deint" (some true)
        "none" false "pre"
      = RunResult.completed
          ((extractIndices (resolve_start env1 (some 49)) 3 1 env1.video.numFrames).map
            (fun idx => (idx, frameName (to_pascal_case env1.baseStem) idx "DeintVerySlow"
              env1.runTimestamp, env1.writeOk idx)))
          (suggestion_block_printed "deint" false) :=
  (C5_fatal_vs_perframe env1 capsId 3 1 false (some 49) 1 "bicubic" "deint" (some true)
    "none" false "pre" clip0 "DeintVerySlow" false rfl).2 rfl

/-- C9: output naming is deterministic and structural — base-name
normalization maps both "my clip_01" and "my-clip 01" to "MyClip01"; the
per-frame filename is exactly the PascalCase base, the zero-padded
six-digit index, the variant suffix, the run timestamp and the
frame-sequence placeholder; indices are padded to at least six digits;
and every record of a completed run is named through `frameName` with a
single per-run suffix and the run's one timestamp. -/
theorem C9_naming_deterministic (b s t : String) (i : Nat) :
    to_pascal_case "my clip_01" = "MyClip01" ∧
    to_pascal_case "my-clip 01" = "MyClip01" ∧
    frameName b i s t
      = b ++ "_F" ++ padZeros6 i ++ "_" ++ s ++ "_" ++ t ++ "_%d.png" ∧
    (padZeros6 i).length = max 6 (toString i).length ∧
    padZeros6 7 = "000007" ∧
    (∀ (env : Env) (caps : Caps) (count step : Nat) (fast : Bool)
        (target : Option Nat) (scale : Nat) (resizer mode : String)
        (tffo : Option Bool) (denoise : String) (stabilize : Bool) (stage : String)
        (recs : List (Nat × String × Bool)) (printed : Bool),
      process_frame env caps count step fast target scale resizer mode tffo denoise
          stabilize stage = RunResult.completed recs printed →
      ∃ suffix, ∀ r ∈ recs,
        r.2.1 = frameName (to_pascal_case env.baseStem) r.1 suffix env.runTimestamp) := by
  refine ⟨rfl, rfl, rfl, ?_, rfl, ?_⟩
  · simp only [padZeros6]
    by_cases h : (toString i).length < 6
    · rw [if_pos h, String.length_append]
      have h1 : (String.mk (List.replicate (6 - (toString i).length) '0')).length
          = 6 - (toString i).length := by
        show (List.replicate (6 - (toString i).length) '0').length = _
        simp
      have h2 : max 6 (toString i).length = 6 := Nat.max_eq_left (Nat.le_of_lt h)
      rw [h1, h2]
      omega
    · rw [if_neg h]
      have h2 : max 6 (toString i).length = (toString i).length :=
        Nat.max_eq_right (Nat.le_of_not_lt h)
      rw [h2]
  · intro env caps count step fast target scale resizer mode tffo denoise stabilize stage
      recs printed h
    by_cases hex : env.fileExists = false
    · simp [process_frame, hex] at h
    · simp only [process_frame] at h
      rw [if_neg hex] at h
      split at h
      · exact absurd h (by simp)
      · rename_i out heq
        refine ⟨out.2.1, ?_⟩
        intro r hr
        rw [RunResult.completed.injEq] at h
        rw [← h.1] at hr
        simp only [List.mem_map] at hr
        obtain ⟨idx, hidx, hre⟩ := hr
        rw [← hre]

theorem get_output_node_fps_forced (caps : Caps) (m : Nat) (video : VideoNode) (mode : String)
    (fast tff : Bool) (denoise : String) (stabilize : Bool) (scale : Nat)
    (resizer denoise_stage : String) :
    ((get_output_node (fps_forced caps m) video mode fast tff denoise stabilize scale resizer
        denoise_stage).1.map (fun x => (x.2.1, x.2.2))
      = (get_output_node caps video mode fast tff denoise stabilize scale resizer
        denoise_stage).1.map (fun x => (x.2.1, x.2.2))) ∧
    ((get_output_node (fps_forced caps m) video mode fast tff denoise stabilize scale resizer
        denoise_stage).2
      = (get_output_node caps video mode fast tff denoise stabilize scale resizer
        denoise_stage).2) := by
  have hpre : prefilt_node (fps_forced caps m) video denoise denoise_stage
      = prefilt_node caps video denoise denoise_stage := rfl
  simp only [get_output_node, hpre]
  simp only [fps_forced]
  cases hq : caps.qtgmc (if fast then "Fast" else "Very Slow") tff
      (prefilt_node caps video denoise denoise_stage) with
  | error e => simp [hq, Except.map]
  | ok d =>
    simp only [hq, Except.map]
    by_cases hc : mode = "composite" ∧ fast = false
    · simp [hc, Except.map]
    · simp only [if_neg hc]
      by_cases ho : mode = "original"
      · simp [ho, Except.map]
      · by_cases hsi : mode = "single" <;> simp [ho, hsi, Except.map]

/-- C1 counterexample: with a deinterlace capability that doubles the
output frame rate (60 fps against the 30 fps source), the run does not
abort: `process_frame` silently accepts the mismatch and completes
normally, writing frames at the canonical indices — no frame-rate
assertion exists. -/
theorem C1_counterexample :
    capsDoubleFps.qtgmc "Very Slow" true clip0
      = Except.ok { clip0 with fpsNum := 60 } ∧
    ({ clip0 with fpsNum := 60 } : VideoNode).fpsNum ≠ clip0.fpsNum ∧
    process_frame env0 capsDoubleFps 1 1 false (some 0) 1 "bicubic" "deint" (some true)
        "none" false "pre"
      = RunResult.completed
          [(0, "Clip_F000000_DeintVerySlow_20250101_000000_%d.png", true)] false :=
  ⟨rfl, by decide, rfl⟩

/-- C1 (amended): the deinterlace stage is configured for 1:1 frame
preservation and canonical indices are used directly on its output
(multiplier 1), but no runtime check compares the deinterlaced output's
frame rate with the source's: forcing the deinterlacer to report any
frame rate whatsoever leaves the observable outcome of the run — exit
status, exception, records and printed block — unchanged, so a mismatch
is silently accepted rather than aborting as a fatal consistency
violation. -/
theorem C1_no_frame_rate_check (env : Env) (caps : Caps) (m : Nat) (count step : Nat)
    (fast : Bool) (target_frame_num : Option Nat) (scale : Nat) (resizer mode : String)
    (tff_override : Option Bool) (denoise : String) (stabilize : Bool)
    (denoise_stage : String) :
    process_frame env (fps_forced caps m) count step fast target_frame_num scale resizer mode
        tff_override denoise stabilize denoise_stage
      = process_frame env caps count step fast target_frame_num scale resizer mode
        tff_override denoise stabilize denoise_stage := by
  by_cases hex : env.fileExists = false
  · simp [process_frame, hex]
  · obtain ⟨h1, h2⟩ := get_output_node_fps_forced caps m env.video mode fast
      (resolve_tff env tff_override (resolve_start env target_frame_num)) denoise stabilize
      scale resizer denoise_stage
    simp only [process_frame]
    rw [if_neg hex, if_neg hex]
    cases hq : (get_output_node caps env.video mode fast
        (resolve_tff env tff_override (resolve_start env target_frame_num)) denoise stabilize
        scale resizer denoise_stage).1 with
    | error e =>
      rw [hq] at h1
      cases hq2 : (get_output_node (fps_forced caps m) env.video mode fast
          (resolve_tff env tff_override (resolve_start env target_frame_num)) denoise stabilize
          scale resizer denoise_stage).1 with
      | error e2 =>
        rw [hq2] at h1
        simp only [Except.map] at h1
        cases h1
        rfl
      | ok out2 =>
        rw [hq2] at h1
        simp [Except.map] at h1
    | ok out =>
      rw [hq] at h1
      cases hq2 : (get_output_node (fps_forced caps m) env.video mode fast
          (resolve_tff env tff_override (resolve_start env target_frame_num)) denoise stabilize
          scale resizer denoise_stage).1 with
      | error e2 =>
        rw [hq2] at h1
        simp [Except.map] at h1
      | ok out2 =>
        rw [hq2] at h1
        simp only [Except.map, Except.ok.injEq, Prod.mk.injEq] at h1
        simp [h1.1]

/-- C1 witness: the outcome-independence instantiated at a concrete run
with the reported deinterlace frame rate forced to 60. -/
theorem C1_no_frame_rate_check_witness :
    process_frame env0 (fps_forced capsId 60) 1 1 false (some 0) 1 "bicubic" "deint"
        (some true) "none" false "pre"
      = process_frame env0 capsId 1 1 false (some 0) 1 "bicubic" "deint"
        (some true) "none" false "pre" :=
  C1_no_frame_rate_check env0 capsId 60 1 1 false (some 0) 1 "bicubic" "deint"
    (some true) "none" false "pre"

/-- C3 witness: the amended field-order dispatch instantiated at the
progressive hint and at an explicit override. -/
theorem C3_field_order_total_witness :
    (detect_field_order (some 0)).tff = decide ((some 0 : Option Int) ≠ some 1) ∧
    resolve_tff env0 (some true) 0 = true :=
  ⟨(C3_field_order_total env0 0 (some 0) true).1,
   (C3_field_order_total env0 0 (some 0) true).2.2.1⟩

/-- C9 witness: the naming properties instantiated at concrete inputs. -/
theorem C9_naming_deterministic_witness :
    to_pascal_case "my clip_01" = "MyClip01" ∧ padZeros6 7 = "000007" :=
  ⟨(C9_naming_deterministic "Clip" "DeintFast" "20250101_000000" 7).1,
   (C9_naming_deterministic "Clip" "DeintFast" "20250101_000000" 7).2.2.2.2.1⟩
